import Mathlib

/-!
Verification of the moisture_tracker Home Assistant custom component
(custom_components/moisture_tracker).  The numeric type of the Python
source (float) is modelled as the rational numbers.  The transcendental
math.log is an abstract parameter of every definition that uses it, since
no verified property depends on the values it returns, only on where it is
called.  Python exceptions that the coordinator converts to UpdateFailed
are modelled with Except: state mutations the Python code performed before
the exception was raised are kept, mutations after it are not, exactly as
in the source.  Wall-clock instants carry an absolute time line (in
minutes) together with the hour and minute fields the code reads.
-/

namespace MoistureTracker

/-- Error kinds raised inside one update cycle (Python ValueError from
math.log on a non-positive argument, and ZeroDivisionError). -/
inductive CalcError where
  | mathDomain : CalcError
  | zeroDivision : CalcError
deriving DecidableEq

/-- Constant from const.py: HUMIDITY_THRESHOLD = 85.0. -/
def HUMIDITY_THRESHOLD : ℚ := 85

/-- Constant from const.py: DEW_TEMP_DIFFERENCE = 1.0. -/
def DEW_TEMP_DIFFERENCE : ℚ := 1

/-- Constant from const.py: DEW_MOIST_CAP = 0.6. -/
def DEW_MOIST_CAP : ℚ := 6 / 10

/-- Constant from const.py: DEW_RESET_HOUR = 12. -/
def DEW_RESET_HOUR : ℕ := 12

/-- Constant from const.py: WETTING_INCREMENT = 0.1. -/
def WETTING_INCREMENT : ℚ := 1 / 10

/-- Constant from const.py: MASTER_DRYING_COEFFICIENT = 0.02. -/
def MASTER_DRYING_COEFFICIENT : ℚ := 2 / 100

/-- Constant from const.py: WEIGHTS["temperature"] = 0.15. -/
def WEIGHTS_temperature : ℚ := 15 / 100

/-- Constant from const.py: WEIGHTS["wind"] = 0.10. -/
def WEIGHTS_wind : ℚ := 10 / 100

/-- Constant from const.py: MAX_SOLAR_POWER_W = 6000. -/
def MAX_SOLAR_POWER_W : ℚ := 6000

/-- Constant from const.py: MIN_DRYING_TEMP_C = 8. -/
def MIN_DRYING_TEMP_C : ℚ := 8

/-- Constant from const.py: MAX_DRYING_TEMP_C = 30. -/
def MAX_DRYING_TEMP_C : ℚ := 30

/-- Constant from const.py: MAX_EFFECTIVE_WIND_KMH = 30. -/
def MAX_EFFECTIVE_WIND_KMH : ℚ := 30

/-- Magnus-Tetens coefficient A from calculations.py. -/
def A : ℚ := 1727 / 100

/-- Magnus-Tetens coefficient B from calculations.py. -/
def B : ℚ := 2377 / 10

/-- The gamma value of calculate_dew_point: (A * temp_c) / (B + temp_c) +
log rh, with the logarithm abstract. -/
def gammaVal (log : ℚ → ℚ) (temp_c rh : ℚ) : ℚ :=
  A * temp_c / (B + temp_c) + log rh

/-- calculations.py, calculate_dew_point.  Python raises ZeroDivisionError
when B + temp_c is exactly zero (the division is evaluated before the log
call), ValueError when the log argument rh is not positive, and
ZeroDivisionError again when A - gamma is exactly zero; otherwise it
returns (B * gamma) / (A - gamma). -/
def calculate_dew_point (log : ℚ → ℚ) (temp_c relative_humidity : ℚ) :
    Except CalcError ℚ :=
  if B + temp_c = 0 then .error .zeroDivision
  else if relative_humidity / 100 ≤ 0 then .error .mathDomain
  else if A - gammaVal log temp_c (relative_humidity / 100) = 0 then
    .error .zeroDivision
  else
    .ok (B * gammaVal log temp_c (relative_humidity / 100) /
      (A - gammaVal log temp_c (relative_humidity / 100)))

/-- Sun component of calculate_grass_drying: solar power scaled by
MAX_SOLAR_POWER_W and clamped to the unit interval. -/
def sun_component (solar_power : ℚ) : ℚ :=
  max 0 (min 1 (solar_power / MAX_SOLAR_POWER_W))

/-- Humidity component of calculate_grass_drying: (90 - humidity) / 100
clamped to the unit interval. -/
def humidity_component (humidity : ℚ) : ℚ :=
  max 0 (min 1 ((90 - humidity) / 100))

/-- Temperature component of calculate_grass_drying: scaled between the
min and max drying temperatures and clamped to the unit interval. -/
def temp_component (temperature : ℚ) : ℚ :=
  max 0 (min 1 ((temperature - MIN_DRYING_TEMP_C) /
    (MAX_DRYING_TEMP_C - MIN_DRYING_TEMP_C)))

/-- Wind component of calculate_grass_drying: wind speed scaled by
MAX_EFFECTIVE_WIND_KMH and clamped to the unit interval. -/
def wind_component (wind_speed : ℚ) : ℚ :=
  max 0 (min 1 (wind_speed / MAX_EFFECTIVE_WIND_KMH))

/-- calculations.py, calculate_grass_drying: the product of the two
limiting factors, times the accelerant boost, times the master drying
coefficient. -/
def calculate_grass_drying
    (solar_power humidity temperature wind_speed : ℚ) : ℚ :=
  sun_component solar_power * humidity_component humidity *
    (1 + temp_component temperature * WEIGHTS_temperature +
      wind_component wind_speed * WEIGHTS_wind) *
    MASTER_DRYING_COEFFICIENT

/-- The sensor snapshot handed to one update cycle, i.e. the data dict
built by _fetch_and_prepare_data: temperature, humidity, solar power and
wind speed as floats, the rain sensor as an int and the daytime flag as a
bool. -/
structure Snapshot where
  temperature : ℚ
  humidity : ℚ
  solar : ℚ
  wind : ℚ
  raining : ℤ
  is_daytime : Bool
deriving DecidableEq

/-- A wall-clock instant: position t on the absolute time line in minutes
(used for the comparison against the sunset trigger time) plus the hour
and minute fields the reset check reads. -/
structure Instant where
  t : ℚ
  hour : ℕ
  minute : ℕ
deriving DecidableEq

/-- The coordinator state persisted across cycles: moisture_level,
the optionally stored sunset temperature and humidity, and the
once-per-day capture flag. -/
structure CoordState where
  moisture_level : ℚ
  sunset_temp : Option ℚ
  sunset_humi : Option ℚ
  has_stored_sunset_values : Bool
deriving DecidableEq

/-- The coordinator state created by __init__: moisture level 0.0, no
stored sunset values, capture flag cleared. -/
def initialState : CoordState :=
  { moisture_level := 0
    sunset_temp := none
    sunset_humi := none
    has_stored_sunset_values := false }

/-- First half of _track_sunset_conditions: when now has reached
sunset - 30 minutes and nothing is stored yet today, store the current
temperature and humidity and set the flag. -/
def trackCapture (sunset : ℚ) (now : Instant) (temp humi : ℚ)
    (s : CoordState) : CoordState :=
  if sunset - 30 ≤ now.t ∧ s.has_stored_sunset_values = false then
    { s with
        sunset_temp := some temp
        sunset_humi := some humi
        has_stored_sunset_values := true }
  else s

/-- Second half of _track_sunset_conditions: in the reset window (hour
equal to DEW_RESET_HOUR, minute below 5) clear the flag and both stored
values. -/
def trackReset (now : Instant) (s : CoordState) : CoordState :=
  if now.hour = DEW_RESET_HOUR ∧ now.minute < 5 then
    { s with
        has_stored_sunset_values := false
        sunset_temp := none
        sunset_humi := none }
  else s

/-- coordinator.py, _track_sunset_conditions: the capture check runs
first, then the reset check, in the same call. -/
def trackSunsetConditions (sunset : ℚ) (now : Instant) (temp humi : ℚ)
    (s : CoordState) : CoordState :=
  trackReset now (trackCapture sunset now temp humi s)

/-- The dew point depression computation of _async_update_data: it starts
from the literal 100.0 and is overwritten with
dew_point(sunset_temp, sunset_humi) + DEW_TEMP_DIFFERENCE - temp only when
both stored values are truthy in the Python sense, i.e. present and
non-zero (the source condition is: if self.sunset_humi and
self.sunset_temp). -/
def dewPointDepression (log : ℚ → ℚ) (sunset_temp sunset_humi : Option ℚ)
    (temp : ℚ) : Except CalcError ℚ :=
  match sunset_humi, sunset_temp with
  | some sh, some st =>
    if sh ≠ 0 ∧ st ≠ 0 then
      match calculate_dew_point log st sh with
      | .error e => .error e
      | .ok dps => .ok (dps + DEW_TEMP_DIFFERENCE - temp)
    else .ok 100
  | _, _ => .ok 100

/-- The four mutually exclusive branches of the model logic in
_async_update_data, applied to the prior moisture level: rain, night dew
wetting, daytime drying, hold. -/
def applyBranches (snap : Snapshot) (dew_point_depression dry_rate m : ℚ) :
    ℚ :=
  if snap.raining = 1 then 1
  else if snap.is_daytime = false ∧ m < DEW_MOIST_CAP ∧
      0 < dew_point_depression then
    min (max m (dew_point_depression * WETTING_INCREMENT)) DEW_MOIST_CAP
  else if snap.is_daytime = true ∧ snap.humidity < HUMIDITY_THRESHOLD then
    max 0 (m - dry_rate)
  else m

/-- Round half to even, the semantics of the Python builtin round. -/
def roundHalfEven (x : ℚ) : ℤ :=
  if x - Int.floor x < 1 / 2 then Int.floor x
  else if 1 / 2 < x - Int.floor x then Int.floor x + 1
  else if Int.floor x % 2 = 0 then Int.floor x else Int.floor x + 1

/-- Python round(x, 3): round x * 1000 half to even, divide by 1000. -/
def pyRound3 (x : ℚ) : ℚ :=
  (roundHalfEven (x * 1000) : ℚ) / 1000

/-- The record returned by a successful cycle: the rounded moisture level
and the diagnostic dew point. -/
structure UpdateResult where
  moisture : ℚ
  dew_point : ℚ
deriving DecidableEq

/-- The part of _async_update_data after the sunset tracking call, acting
on the already-tracked state s1: compute the diagnostic dew point, the
dew point depression, the drying rate, run the branch logic, round to
three digits and store.  A raised error leaves s1 as it is (the Python
exception aborts the method before self.moisture_level is assigned). -/
def modelStep (log : ℚ → ℚ) (snap : Snapshot) (s1 : CoordState) :
    CoordState × Except CalcError UpdateResult :=
  match calculate_dew_point log snap.temperature snap.humidity with
  | .error e => (s1, .error e)
  | .ok dp =>
    match dewPointDepression log s1.sunset_temp s1.sunset_humi
        snap.temperature with
    | .error e => (s1, .error e)
    | .ok dep =>
      (⟨pyRound3 (applyBranches snap dep
          (calculate_grass_drying snap.solar snap.humidity snap.temperature
            snap.wind) s1.moisture_level),
        s1.sunset_temp, s1.sunset_humi, s1.has_stored_sunset_values⟩,
       .ok ⟨pyRound3 (applyBranches snap dep
          (calculate_grass_drying snap.solar snap.humidity snap.temperature
            snap.wind) s1.moisture_level), dp⟩)

/-- coordinator.py, _async_update_data, given an already fetched snapshot:
first _track_sunset_conditions mutates the sunset state (this mutation
survives a later per-cycle failure), then the model step runs. -/
def asyncUpdateData (log : ℚ → ℚ) (snap : Snapshot) (now : Instant)
    (sunset : ℚ) (s : CoordState) :
    CoordState × Except CalcError UpdateResult :=
  modelStep log snap (trackSunsetConditions sunset now snap.temperature
    snap.humidity s)

/-- Whether a cycle outcome is a failure (an UpdateFailed raised to the
host). -/
def stepFailed : CoordState × Except CalcError UpdateResult → Bool
  | (_, .error _) => true
  | (_, .ok _) => false

/-- One cycle input: the snapshot, the wall-clock instant and the sunset
time for that cycle. -/
structure CycleInput where
  snap : Snapshot
  now : Instant
  sunset : ℚ

/-- Run a sequence of update cycles from a starting state, keeping the
state each cycle leaves behind (whether it succeeded or failed). -/
def runCycles (log : ℚ → ℚ) (s : CoordState) : List CycleInput → CoordState
  | [] => s
  | c :: cs => runCycles log (asyncUpdateData log c.snap c.now c.sunset s).1 cs

/-- Repeat the same cycle input n times, as in the repeated-cycle claims. -/
def iterateCycles (log : ℚ → ℚ) (snap : Snapshot) (now : Instant)
    (sunset : ℚ) : ℕ → CoordState → CoordState
  | 0, s => s
  | n + 1, s =>
    iterateCycles log snap now sunset n (asyncUpdateData log snap now sunset s).1

/-- A rational that is an integer multiple of one thousandth, the shape of
every value round(x, 3) can produce. -/
def isRound3 (x : ℚ) : Prop := ∃ k : ℤ, x = (k : ℚ) / 1000

/-- The everywhere-zero stand-in for math.log used to evaluate the model
on concrete inputs; the properties proved below quantify over the log
function wherever its values could matter. -/
def log0 : ℚ → ℚ := fun _ => 0

/-! Helper lemmas about rounding. -/

theorem roundHalfEven_bounds (x : ℚ) :
    Int.floor x ≤ roundHalfEven x ∧ roundHalfEven x ≤ Int.floor x + 1 := by
  unfold roundHalfEven
  split_ifs <;> omega

theorem roundHalfEven_intCast (k : ℤ) : roundHalfEven (k : ℚ) = k := by
  unfold roundHalfEven
  rw [Int.floor_intCast]
  norm_num

theorem roundHalfEven_mono {x y : ℚ} (h : x ≤ y) :
    roundHalfEven x ≤ roundHalfEven y := by
  rcases lt_or_le (Int.floor x) (Int.floor y) with hf | hf
  · have h1 := (roundHalfEven_bounds x).2
    have h2 := (roundHalfEven_bounds y).1
    omega
  · have hfe : Int.floor x = Int.floor y := le_antisymm (Int.floor_mono h) hf
    have hfr : x - (Int.floor y : ℚ) ≤ y - (Int.floor y : ℚ) := by linarith
    unfold roundHalfEven
    rw [hfe]
    split_ifs <;> first | omega | linarith

theorem pyRound3_mono {x y : ℚ} (h : x ≤ y) : pyRound3 x ≤ pyRound3 y := by
  unfold pyRound3
  have h1 : x * 1000 ≤ y * 1000 := by linarith
  have h2 := roundHalfEven_mono h1
  have h3 : (roundHalfEven (x * 1000) : ℚ) ≤ (roundHalfEven (y * 1000) : ℚ) := by
    exact_mod_cast h2
  linarith

theorem pyRound3_isRound3 (x : ℚ) : isRound3 (pyRound3 x) :=
  ⟨roundHalfEven (x * 1000), rfl⟩

theorem pyRound3_fix {x : ℚ} (h : isRound3 x) : pyRound3 x = x := by
  obtain ⟨k, rfl⟩ := h
  unfold pyRound3
  rw [div_mul_cancel₀ _ (by norm_num : (1000 : ℚ) ≠ 0), roundHalfEven_intCast]

theorem pyRound3_zero : pyRound3 0 = 0 := by
  have h : isRound3 (0 : ℚ) := ⟨0, by norm_num⟩
  exact pyRound3_fix h

theorem pyRound3_one : pyRound3 1 = 1 := by
  have h : isRound3 (1 : ℚ) := ⟨1000, by norm_num⟩
  exact pyRound3_fix h

theorem pyRound3_cap : pyRound3 DEW_MOIST_CAP = DEW_MOIST_CAP := by
  have h : isRound3 DEW_MOIST_CAP := ⟨600, by norm_num [DEW_MOIST_CAP]⟩
  exact pyRound3_fix h

theorem pyRound3_mem_unit {x : ℚ} (h0 : 0 ≤ x) (h1 : x ≤ 1) :
    0 ≤ pyRound3 x ∧ pyRound3 x ≤ 1 := by
  constructor
  · have h := pyRound3_mono h0
    rw [pyRound3_zero] at h
    exact h
  · have h := pyRound3_mono h1
    rw [pyRound3_one] at h
    exact h

/-! Helper lemmas about the sunset tracker and the model step. -/

theorem trackCapture_moisture (sunset : ℚ) (now : Instant) (temp humi : ℚ)
    (s : CoordState) :
    (trackCapture sunset now temp humi s).moisture_level = s.moisture_level := by
  unfold trackCapture
  split_ifs <;> rfl

theorem trackReset_moisture (now : Instant) (s : CoordState) :
    (trackReset now s).moisture_level = s.moisture_level := by
  unfold trackReset
  split_ifs <;> rfl

theorem trackSunsetConditions_moisture (sunset : ℚ) (now : Instant)
    (temp humi : ℚ) (s : CoordState) :
    (trackSunsetConditions sunset now temp humi s).moisture_level =
      s.moisture_level := by
  unfold trackSunsetConditions
  rw [trackReset_moisture, trackCapture_moisture]

theorem modelStep_cases (log : ℚ → ℚ) (snap : Snapshot) (s1 : CoordState) :
    ((∃ e, modelStep log snap s1 = (s1, .error e)) ∨
      ∃ dp dep,
        calculate_dew_point log snap.temperature snap.humidity = .ok dp ∧
        dewPointDepression log s1.sunset_temp s1.sunset_humi
          snap.temperature = .ok dep ∧
        modelStep log snap s1 =
          (⟨pyRound3 (applyBranches snap dep
              (calculate_grass_drying snap.solar snap.humidity
                snap.temperature snap.wind) s1.moisture_level),
            s1.sunset_temp, s1.sunset_humi, s1.has_stored_sunset_values⟩,
           .ok ⟨pyRound3 (applyBranches snap dep
              (calculate_grass_drying snap.solar snap.humidity
                snap.temperature snap.wind) s1.moisture_level), dp⟩)) := by
  unfold modelStep
  cases h1 : calculate_dew_point log snap.temperature snap.humidity with
  | error e => exact Or.inl ⟨e, rfl⟩
  | ok dp =>
    cases h2 : dewPointDepression log s1.sunset_temp s1.sunset_humi
        snap.temperature with
    | error e => exact Or.inl ⟨e, rfl⟩
    | ok dep => exact Or.inr ⟨dp, dep, rfl, rfl, rfl⟩

theorem modelStep_error_state (log : ℚ → ℚ) (snap : Snapshot)
    (s1 : CoordState) (e : CalcError)
    (h : (modelStep log snap s1).2 = .error e) :
    (modelStep log snap s1).1 = s1 := by
  rcases modelStep_cases log snap s1 with ⟨e2, he⟩ | ⟨dp, dep, _, _, he⟩
  · rw [he]
  · rw [he] at h
    cases h

theorem modelStep_ok (log : ℚ → ℚ) (snap : Snapshot) (s1 : CoordState)
    (r : UpdateResult) (h : (modelStep log snap s1).2 = .ok r) :
    ∃ dep,
      dewPointDepression log s1.sunset_temp s1.sunset_humi
        snap.temperature = .ok dep ∧
      r.moisture = pyRound3 (applyBranches snap dep
        (calculate_grass_drying snap.solar snap.humidity snap.temperature
          snap.wind) s1.moisture_level) ∧
      (modelStep log snap s1).1.moisture_level = r.moisture ∧
      (modelStep log snap s1).1.sunset_temp = s1.sunset_temp ∧
      (modelStep log snap s1).1.sunset_humi = s1.sunset_humi := by
  rcases modelStep_cases log snap s1 with ⟨e, he⟩ | ⟨dp, dep, _, h2, he⟩
  · rw [he] at h
    cases h
  · rw [he] at h
    rw [he]
    cases h
    exact ⟨dep, h2, rfl, rfl, rfl, rfl⟩

/-! Helper lemmas about the drying rate and the branch logic. -/

theorem component_mem_unit (x : ℚ) : 0 ≤ max 0 (min 1 x) ∧ max 0 (min 1 x) ≤ 1 := by
  constructor
  · exact le_max_left 0 (min 1 x)
  · rcases le_or_lt (min 1 x) 0 with h | h
    · rw [max_eq_left h]
      norm_num
    · rw [max_eq_right h.le]
      exact min_le_left 1 x

theorem calculate_grass_drying_nonneg (a b c d : ℚ) :
    0 ≤ calculate_grass_drying a b c d := by
  unfold calculate_grass_drying
  have h1 := (component_mem_unit (a / MAX_SOLAR_POWER_W)).1
  have h2 := (component_mem_unit ((90 - b) / 100)).1
  have h3 := (component_mem_unit ((c - MIN_DRYING_TEMP_C) /
    (MAX_DRYING_TEMP_C - MIN_DRYING_TEMP_C))).1
  have h4 := (component_mem_unit (d / MAX_EFFECTIVE_WIND_KMH)).1
  unfold sun_component humidity_component temp_component wind_component
  have hb : (0 : ℚ) ≤ 1 + max 0 (min 1 ((c - MIN_DRYING_TEMP_C) /
      (MAX_DRYING_TEMP_C - MIN_DRYING_TEMP_C))) * WEIGHTS_temperature +
      max 0 (min 1 (d / MAX_EFFECTIVE_WIND_KMH)) * WEIGHTS_wind := by
    have := mul_nonneg h3 (by norm_num [WEIGHTS_temperature] : (0:ℚ) ≤ WEIGHTS_temperature)
    have := mul_nonneg h4 (by norm_num [WEIGHTS_wind] : (0:ℚ) ≤ WEIGHTS_wind)
    linarith
  have hc : (0 : ℚ) ≤ MASTER_DRYING_COEFFICIENT := by
    norm_num [MASTER_DRYING_COEFFICIENT]
  exact mul_nonneg (mul_nonneg (mul_nonneg h1 h2) hb) hc

theorem applyBranches_mem_unit (snap : Snapshot) (dep dry m : ℚ)
    (hm0 : 0 ≤ m) (hm1 : m ≤ 1) (hdry : 0 ≤ dry) :
    0 ≤ applyBranches snap dep dry m ∧ applyBranches snap dep dry m ≤ 1 := by
  unfold applyBranches
  split_ifs with h1 h2 h3
  · norm_num
  · constructor
    · exact le_min (le_trans hm0 (le_max_left m _)) (by norm_num [DEW_MOIST_CAP])
    · exact le_trans (min_le_right _ _) (by norm_num [DEW_MOIST_CAP])
  · constructor
    · exact le_max_left 0 (m - dry)
    · rcases le_or_lt (m - dry) 0 with h | h
      · rw [max_eq_left h]
        norm_num
      · rw [max_eq_right h.le]
        linarith
  · exact ⟨hm0, hm1⟩

theorem applyBranches_rain (snap : Snapshot) (dep dry m : ℚ)
    (h : snap.raining = 1) : applyBranches snap dep dry m = 1 := by
  unfold applyBranches
  rw [if_pos h]

theorem applyBranches_dew (snap : Snapshot) (dep dry m : ℚ)
    (hrain : snap.raining ≠ 1) (hday : snap.is_daytime = false)
    (hm : m < DEW_MOIST_CAP) (hdep : 0 < dep) :
    applyBranches snap dep dry m =
      min (max m (dep * WETTING_INCREMENT)) DEW_MOIST_CAP := by
  unfold applyBranches
  rw [if_neg hrain, if_pos ⟨hday, hm, hdep⟩]

theorem applyBranches_dry (snap : Snapshot) (dep dry m : ℚ)
    (hrain : snap.raining ≠ 1) (hday : snap.is_daytime = true)
    (hhum : snap.humidity < HUMIDITY_THRESHOLD) :
    applyBranches snap dep dry m = max 0 (m - dry) := by
  unfold applyBranches
  rw [if_neg hrain]
  rw [if_neg (by simp [hday])]
  rw [if_pos ⟨hday, hhum⟩]

theorem asyncUpdateData_moisture_mem_unit (log : ℚ → ℚ) (snap : Snapshot)
    (now : Instant) (sunset : ℚ) (s : CoordState)
    (hm0 : 0 ≤ s.moisture_level) (hm1 : s.moisture_level ≤ 1) :
    0 ≤ (asyncUpdateData log snap now sunset s).1.moisture_level ∧
      (asyncUpdateData log snap now sunset s).1.moisture_level ≤ 1 := by
  unfold asyncUpdateData
  have hs1 := trackSunsetConditions_moisture sunset now snap.temperature
    snap.humidity s
  rcases modelStep_cases log snap (trackSunsetConditions sunset now
      snap.temperature snap.humidity s) with ⟨e, he⟩ | ⟨dp, dep, _, _, he⟩
  · rw [he]
    rw [hs1]
    exact ⟨hm0, hm1⟩
  · rw [he]
    have hb := applyBranches_mem_unit snap dep
      (calculate_grass_drying snap.solar snap.humidity snap.temperature
        snap.wind)
      (trackSunsetConditions sunset now snap.temperature snap.humidity
        s).moisture_level
      (by rw [hs1]; exact hm0) (by rw [hs1]; exact hm1)
      (calculate_grass_drying_nonneg snap.solar snap.humidity
        snap.temperature snap.wind)
    exact pyRound3_mem_unit hb.1 hb.2

theorem asyncUpdateData_failed_moisture (log : ℚ → ℚ) (snap : Snapshot)
    (now : Instant) (sunset : ℚ) (s : CoordState) (e : CalcError)
    (h : (asyncUpdateData log snap now sunset s).2 = .error e) :
    (asyncUpdateData log snap now sunset s).1.moisture_level =
      s.moisture_level := by
  unfold asyncUpdateData at h ⊢
  rw [modelStep_error_state log snap _ e h]
  exact trackSunsetConditions_moisture sunset now snap.temperature
    snap.humidity s

theorem asyncUpdateData_dry_step (log : ℚ → ℚ) (snap : Snapshot)
    (now : Instant) (sunset : ℚ) (s : CoordState)
    (hday : snap.is_daytime = true) (hhum : snap.humidity < HUMIDITY_THRESHOLD)
    (hrain : snap.raining ≠ 1)
    (hmk : isRound3 s.moisture_level) (hm0 : 0 ≤ s.moisture_level) :
    (asyncUpdateData log snap now sunset s).1.moisture_level ≤
        s.moisture_level ∧
      isRound3 (asyncUpdateData log snap now sunset s).1.moisture_level ∧
      0 ≤ (asyncUpdateData log snap now sunset s).1.moisture_level ∧
      (s.moisture_level = 0 →
        (asyncUpdateData log snap now sunset s).1.moisture_level = 0) := by
  unfold asyncUpdateData
  have hs1 := trackSunsetConditions_moisture sunset now snap.temperature
    snap.humidity s
  rcases modelStep_cases log snap (trackSunsetConditions sunset now
      snap.temperature snap.humidity s) with ⟨e, he⟩ | ⟨dp, dep, _, _, he⟩
  · rw [he, hs1]
    exact ⟨le_refl _, hmk, hm0, fun h => h⟩
  · rw [he]
    rw [applyBranches_dry snap dep _ _ hrain hday hhum, hs1]
    have hdry := calculate_grass_drying_nonneg snap.solar snap.humidity
      snap.temperature snap.wind
    have hcur_le : max 0 (s.moisture_level - calculate_grass_drying snap.solar
        snap.humidity snap.temperature snap.wind) ≤ s.moisture_level :=
      max_le hm0 (by linarith)
    have hcur_nonneg : (0 : ℚ) ≤ max 0 (s.moisture_level -
        calculate_grass_drying snap.solar snap.humidity snap.temperature
          snap.wind) := le_max_left _ _
    refine ⟨?_, pyRound3_isRound3 _, ?_, ?_⟩
    · calc pyRound3 (max 0 (s.moisture_level - calculate_grass_drying
            snap.solar snap.humidity snap.temperature snap.wind)) ≤
          pyRound3 s.moisture_level := pyRound3_mono hcur_le
        _ = s.moisture_level := pyRound3_fix hmk
    · have h := pyRound3_mono hcur_nonneg
      rw [pyRound3_zero] at h
      exact h
    · intro h0
      rw [h0]
      have hz : max 0 ((0 : ℚ) - calculate_grass_drying snap.solar
          snap.humidity snap.temperature snap.wind) = 0 :=
        max_eq_left (by linarith)
      rw [hz, pyRound3_zero]

theorem calculate_dew_point_err (log : ℚ → ℚ) (t h : ℚ) (hh : h ≤ 0) :
    ∃ e, calculate_dew_point log t h = .error e := by
  unfold calculate_dew_point
  split_ifs with h1 h2 h3
  · exact ⟨.zeroDivision, rfl⟩
  · exact ⟨.mathDomain, rfl⟩
  · exact ⟨.zeroDivision, rfl⟩
  · exfalso
    apply h2
    linarith

theorem modelStep_dew_error (log : ℚ → ℚ) (snap : Snapshot) (s1 : CoordState)
    (e : CalcError)
    (h : calculate_dew_point log snap.temperature snap.humidity = .error e) :
    modelStep log snap s1 = (s1, .error e) := by
  unfold modelStep
  rw [h]

theorem applyBranches_shape (snap : Snapshot) (dep dry m : ℚ) :
    applyBranches snap dep dry m = 1 ∨
    applyBranches snap dep dry m =
      min (max m (dep * WETTING_INCREMENT)) DEW_MOIST_CAP ∨
    applyBranches snap dep dry m = max 0 (m - dry) ∨
    applyBranches snap dep dry m = m := by
  unfold applyBranches
  split_ifs <;> tauto

theorem runCycles_mem_unit (log : ℚ → ℚ) (inputs : List CycleInput) :
    ∀ s : CoordState, 0 ≤ s.moisture_level → s.moisture_level ≤ 1 →
      0 ≤ (runCycles log s inputs).moisture_level ∧
        (runCycles log s inputs).moisture_level ≤ 1 := by
  induction inputs with
  | nil =>
    intro s h0 h1
    exact ⟨h0, h1⟩
  | cons c cs ih =>
    intro s h0 h1
    have h := asyncUpdateData_moisture_mem_unit log c.snap c.now c.sunset s h0 h1
    exact ih _ h.1 h.2

/-! Concrete cycle inputs used by the witnesses and counterexamples. -/

/-- An instant at hour 3 on the absolute time line origin: before the
sunset trigger window of any sunset far in the future, and outside the
noon reset window. -/
def nowQuiet : Instant := ⟨0, 3, 0⟩

/-- A raining daytime snapshot. -/
def snapC3 : Snapshot := ⟨20, 50, 100, 5, 1, true⟩

/-- A half-wet prior state with no stored sunset values. -/
def stC3 : CoordState := ⟨1 / 2, none, none, false⟩

/-- C3: for every prior moisture level in the unit interval and every
snapshot with the rain flag set, a successful update cycle returns
moisture 1.0 and persists moisture 1.0, regardless of the other snapshot
fields and of the sunset condition. -/
theorem spec_C3_rain_dominance (log : ℚ → ℚ) (snap : Snapshot)
    (now : Instant) (sunset : ℚ) (s : CoordState) (r : UpdateResult)
    (hm0 : 0 ≤ s.moisture_level) (hm1 : s.moisture_level ≤ 1)
    (hrain : snap.raining = 1)
    (hok : (asyncUpdateData log snap now sunset s).2 = .ok r) :
    r.moisture = 1 ∧
      (asyncUpdateData log snap now sunset s).1.moisture_level = 1 := by
  unfold asyncUpdateData at hok ⊢
  obtain ⟨dep, _, hr, hst, _, _⟩ := modelStep_ok log snap _ r hok
  rw [applyBranches_rain snap dep _ _ hrain, pyRound3_one] at hr
  rw [hst, hr]
  exact ⟨rfl, rfl⟩

theorem spec_C3_rain_dominance_witness :
    (⟨1, 20⟩ : UpdateResult).moisture = 1 ∧
      (asyncUpdateData log0 snapC3 nowQuiet 10000 stC3).1.moisture_level = 1 :=
  spec_C3_rain_dominance log0 snapC3 nowQuiet 10000 stC3 ⟨1, 20⟩
    (by norm_num [stC3]) (by norm_num [stC3]) (by norm_num [snapC3])
    (by norm_num [asyncUpdateData, modelStep, trackSunsetConditions,
      trackCapture, trackReset, snapC3, stC3, nowQuiet, log0,
      dewPointDepression, calculate_dew_point, gammaVal, A, B,
      DEW_TEMP_DIFFERENCE, DEW_RESET_HOUR, applyBranches, DEW_MOIST_CAP,
      WETTING_INCREMENT, HUMIDITY_THRESHOLD, pyRound3, roundHalfEven,
      calculate_grass_drying, sun_component, humidity_component,
      temp_component, wind_component, MAX_SOLAR_POWER_W, MIN_DRYING_TEMP_C,
      MAX_DRYING_TEMP_C, MAX_EFFECTIVE_WIND_KMH, WEIGHTS_temperature,
      WEIGHTS_wind, MASTER_DRYING_COEFFICIENT])

/-- C6: the drying rate equals the product of the clamped sun and
humidity limiting factors, times the accelerant boost built from the
clamped temperature and wind factors with their weights, times the master
drying coefficient, and it is never negative. -/
theorem spec_C6_drying_rate (solar hum temp wind : ℚ) :
    calculate_grass_drying solar hum temp wind =
      (max 0 (min 1 (solar / 6000)) * max 0 (min 1 ((90 - hum) / 100))) *
        (1 + max 0 (min 1 ((temp - 8) / (30 - 8))) * (15 / 100) +
          max 0 (min 1 (wind / 30)) * (10 / 100)) * (2 / 100) ∧
    0 ≤ calculate_grass_drying solar hum temp wind := by
  constructor
  · unfold calculate_grass_drying sun_component humidity_component
      temp_component wind_component
    norm_num [MAX_SOLAR_POWER_W, MIN_DRYING_TEMP_C, MAX_DRYING_TEMP_C,
      MAX_EFFECTIVE_WIND_KMH, WEIGHTS_temperature, WEIGHTS_wind,
      MASTER_DRYING_COEFFICIENT]
  · exact calculate_grass_drying_nonneg solar hum temp wind

/-- A nighttime snapshot whose humidity is exactly 0, which makes the log
argument of the dew point formula non-positive. -/
def snapC2 : Snapshot := ⟨15, 0, 0, 0, 0, false⟩

/-- An instant inside the sunset trigger window of a sunset at absolute
minute 1000 (trigger time 970). -/
def nowC2 : Instant := ⟨980, 18, 0⟩

/-- C2 (amended): a failing cycle never changes moisture_level; the
sunset condition, however, is updated by the capture step that runs
before the failing dew point computation, as the counterexample shows. -/
theorem spec_C2_failed_state (log : ℚ → ℚ) (snap : Snapshot) (now : Instant)
    (sunset : ℚ) (s : CoordState) (e : CalcError)
    (h : (asyncUpdateData log snap now sunset s).2 = .error e) :
    (asyncUpdateData log snap now sunset s).1.moisture_level =
      s.moisture_level :=
  asyncUpdateData_failed_moisture log snap now sunset s e h

theorem spec_C2_failed_state_witness :
    (asyncUpdateData log0 snapC2 nowC2 1000 initialState).1.moisture_level =
      initialState.moisture_level :=
  spec_C2_failed_state log0 snapC2 nowC2 1000 initialState .mathDomain
    (by norm_num [asyncUpdateData, modelStep, trackSunsetConditions,
      trackCapture, trackReset, snapC2, nowC2, initialState, log0,
      calculate_dew_point, gammaVal, A, B, DEW_RESET_HOUR])

theorem spec_C2_counterexample :
    stepFailed (asyncUpdateData log0 snapC2 nowC2 1000 initialState) = true ∧
    initialState.sunset_temp = none ∧
    initialState.has_stored_sunset_values = false ∧
    (asyncUpdateData log0 snapC2 nowC2 1000 initialState).1.sunset_temp =
      some 15 ∧
    (asyncUpdateData log0 snapC2 nowC2 1000
      initialState).1.has_stored_sunset_values = true := by
  norm_num [asyncUpdateData, modelStep, trackSunsetConditions, trackCapture,
    trackReset, snapC2, nowC2, initialState, log0, calculate_dew_point,
    gammaVal, A, B, DEW_RESET_HOUR, stepFailed]

/-- A snapshot violating every bound the specification says is rejected:
humidity above 100, negative solar power, negative wind speed. -/
def snapC9 : Snapshot := ⟨10, 150, -5, -3, 0, true⟩

/-- C9 (amended): the code performs no input validation; only a humidity
that makes the log argument non-positive (humidity at or below 0) fails
the cycle, and then moisture_level is unchanged.  Snapshots with humidity
above 100 or negative solar or wind values are accepted, as the
counterexample shows. -/
theorem spec_C9_validation (log : ℚ → ℚ) (snap : Snapshot) (now : Instant)
    (sunset : ℚ) (s : CoordState) (hh : snap.humidity ≤ 0) :
    stepFailed (asyncUpdateData log snap now sunset s) = true ∧
    (asyncUpdateData log snap now sunset s).1.moisture_level =
      s.moisture_level := by
  obtain ⟨e, he⟩ := calculate_dew_point_err log snap.temperature
    snap.humidity hh
  have hstep : (asyncUpdateData log snap now sunset s).2 = .error e := by
    unfold asyncUpdateData
    rw [modelStep_dew_error log snap _ e he]
  constructor
  · unfold stepFailed
    rcases hh2 : asyncUpdateData log snap now sunset s with ⟨s2, r2⟩
    rw [hh2] at hstep
    simp only at hstep
    rw [hstep]
  · exact asyncUpdateData_failed_moisture log snap now sunset s e hstep

theorem spec_C9_validation_witness :
    stepFailed (asyncUpdateData log0 snapC2 nowQuiet 10000 stC3) = true ∧
    (asyncUpdateData log0 snapC2 nowQuiet 10000 stC3).1.moisture_level =
      stC3.moisture_level :=
  spec_C9_validation log0 snapC2 nowQuiet 10000 stC3
    (by norm_num [snapC2])

theorem spec_C9_counterexample :
    snapC9.humidity > 100 ∧ snapC9.solar < 0 ∧ snapC9.wind < 0 ∧
    stepFailed (asyncUpdateData log0 snapC9 nowQuiet 10000 initialState) =
      false := by
  norm_num [asyncUpdateData, modelStep, trackSunsetConditions, trackCapture,
    trackReset, snapC9, nowQuiet, initialState, log0, dewPointDepression,
    calculate_dew_point, gammaVal, A, B, DEW_RESET_HOUR, stepFailed]

theorem dewPointDepression_none_humi (log : ℚ → ℚ) (st : Option ℚ)
    (temp : ℚ) : dewPointDepression log st none temp = .ok 100 := by
  unfold dewPointDepression
  cases st <;> rfl

/-- A calm nighttime snapshot: temperature 10, humidity 50, no sun, no
wind, not raining, sun below the horizon. -/
def snapC1 : Snapshot := ⟨10, 50, 0, 0, 0, false⟩

/-- C1 (amended): when the sunset condition still has no captured values
after the tracking step, the dew point depression keeps its initial value
100.0, which is positive, so the night dew-wetting branch does trigger
for every nighttime non-raining snapshot with moisture below the cap: the
successful cycle raises moisture_level to exactly DEW_MOIST_CAP. -/
theorem spec_C1_sentinel (log : ℚ → ℚ) (snap : Snapshot) (now : Instant)
    (sunset : ℚ) (s : CoordState) (r : UpdateResult)
    (hnone : (trackSunsetConditions sunset now snap.temperature
      snap.humidity s).sunset_humi = none)
    (hnight : snap.is_daytime = false) (hrain : snap.raining ≠ 1)
    (hm : s.moisture_level < DEW_MOIST_CAP)
    (hok : (asyncUpdateData log snap now sunset s).2 = .ok r) :
    s.moisture_level < r.moisture ∧ r.moisture = DEW_MOIST_CAP := by
  unfold asyncUpdateData at hok
  obtain ⟨dep, hdep, hr, _, _, _⟩ := modelStep_ok log snap _ r hok
  rw [hnone, dewPointDepression_none_humi] at hdep
  have hdep100 : dep = 100 := by
    cases hdep
    rfl
  subst hdep100
  have hs1 := trackSunsetConditions_moisture sunset now snap.temperature
    snap.humidity s
  rw [applyBranches_dew snap 100 _ _ hrain hnight (by rw [hs1]; exact hm)
    (by norm_num)] at hr
  rw [hs1] at hr
  have hmax : max s.moisture_level (100 * WETTING_INCREMENT) = 10 := by
    rw [max_eq_right]
    · norm_num [WETTING_INCREMENT]
    · norm_num [WETTING_INCREMENT]
      norm_num [DEW_MOIST_CAP] at hm
      linarith
  rw [hmax] at hr
  have hmin : min (10 : ℚ) DEW_MOIST_CAP = DEW_MOIST_CAP := by
    rw [min_eq_right]
    norm_num [DEW_MOIST_CAP]
  rw [hmin, pyRound3_cap] at hr
  rw [hr]
  exact ⟨hm, rfl⟩

theorem spec_C1_sentinel_witness :
    initialState.moisture_level <
        (⟨DEW_MOIST_CAP, 10⟩ : UpdateResult).moisture ∧
      (⟨DEW_MOIST_CAP, 10⟩ : UpdateResult).moisture = DEW_MOIST_CAP :=
  spec_C1_sentinel log0 snapC1 nowQuiet 10000 initialState
    ⟨DEW_MOIST_CAP, 10⟩
    (by norm_num [trackSunsetConditions, trackCapture, trackReset,
      initialState, nowQuiet, DEW_RESET_HOUR])
    (by norm_num [snapC1]) (by norm_num [snapC1])
    (by norm_num [initialState, DEW_MOIST_CAP])
    (by norm_num [asyncUpdateData, modelStep, trackSunsetConditions,
      trackCapture, trackReset, snapC1, nowQuiet, initialState, log0,
      dewPointDepression, calculate_dew_point, gammaVal, A, B,
      DEW_TEMP_DIFFERENCE, DEW_RESET_HOUR, applyBranches, DEW_MOIST_CAP,
      WETTING_INCREMENT, HUMIDITY_THRESHOLD, pyRound3, roundHalfEven,
      calculate_grass_drying, sun_component, humidity_component,
      temp_component, wind_component, MAX_SOLAR_POWER_W, MIN_DRYING_TEMP_C,
      MAX_DRYING_TEMP_C, MAX_EFFECTIVE_WIND_KMH, WEIGHTS_temperature,
      WEIGHTS_wind, MASTER_DRYING_COEFFICIENT])

theorem spec_C1_counterexample :
    initialState.sunset_temp = none ∧ initialState.sunset_humi = none ∧
    initialState.moisture_level = 0 ∧ snapC1.is_daytime = false ∧
    snapC1.raining ≠ 1 ∧
    trackSunsetConditions 10000 nowQuiet snapC1.temperature snapC1.humidity
      initialState = initialState ∧
    (asyncUpdateData log0 snapC1 nowQuiet 10000
      initialState).1.moisture_level = 3 / 5 := by
  norm_num [asyncUpdateData, modelStep, trackSunsetConditions, trackCapture,
    trackReset, snapC1, nowQuiet, initialState, log0, dewPointDepression,
    calculate_dew_point, gammaVal, A, B, DEW_TEMP_DIFFERENCE,
    DEW_RESET_HOUR, applyBranches, DEW_MOIST_CAP, WETTING_INCREMENT,
    HUMIDITY_THRESHOLD, pyRound3, roundHalfEven, calculate_grass_drying,
    sun_component, humidity_component, temp_component, wind_component,
    MAX_SOLAR_POWER_W, MIN_DRYING_TEMP_C, MAX_DRYING_TEMP_C,
    MAX_EFFECTIVE_WIND_KMH, WEIGHTS_temperature, WEIGHTS_wind,
    MASTER_DRYING_COEFFICIENT]

/-- A state with captured sunset values temperature 10 and humidity 80
and the capture flag set. -/
def stC5 : CoordState := ⟨0, some 10, some 80, true⟩

/-- A cold nighttime snapshot used to trigger the dew branch with the
captured values of stC5. -/
def snapC5 : Snapshot := ⟨0, 50, 0, 0, 0, false⟩

/-- C5: whenever the night dew-wetting branch applies (not raining, not
daytime, moisture below the cap, positive dew point depression), the
persisted moisture equals the rounding of
min (max old (depression * WETTING_INCREMENT)) DEW_MOIST_CAP; it never
exceeds DEW_MOIST_CAP for any depression magnitude, and it is never less
than the old (three-digit) moisture level. -/
theorem spec_C5_dew_branch (log : ℚ → ℚ) (snap : Snapshot) (now : Instant)
    (sunset : ℚ) (s : CoordState) (r : UpdateResult) (dep : ℚ) (k : ℤ)
    (hrain : snap.raining ≠ 1) (hnight : snap.is_daytime = false)
    (hm : s.moisture_level < DEW_MOIST_CAP)
    (hdep : dewPointDepression log
      (trackSunsetConditions sunset now snap.temperature snap.humidity
        s).sunset_temp
      (trackSunsetConditions sunset now snap.temperature snap.humidity
        s).sunset_humi
      snap.temperature = .ok dep)
    (hdep_pos : 0 < dep)
    (hmk : s.moisture_level = (k : ℚ) / 1000)
    (hok : (asyncUpdateData log snap now sunset s).2 = .ok r) :
    r.moisture = pyRound3 (min (max s.moisture_level
        (dep * WETTING_INCREMENT)) DEW_MOIST_CAP) ∧
      r.moisture ≤ DEW_MOIST_CAP ∧ s.moisture_level ≤ r.moisture := by
  unfold asyncUpdateData at hok
  obtain ⟨dep2, hdep2, hr, _, _, _⟩ := modelStep_ok log snap _ r hok
  rw [hdep] at hdep2
  have hdepe : dep = dep2 := by
    injection hdep2
  rw [← hdepe] at hr
  have hs1 := trackSunsetConditions_moisture sunset now snap.temperature
    snap.humidity s
  rw [applyBranches_dew snap dep _ _ hrain hnight (by rw [hs1]; exact hm)
    hdep_pos, hs1] at hr
  refine ⟨hr, ?_, ?_⟩
  · rw [hr]
    calc pyRound3 (min (max s.moisture_level (dep * WETTING_INCREMENT))
          DEW_MOIST_CAP) ≤ pyRound3 DEW_MOIST_CAP :=
        pyRound3_mono (min_le_right _ _)
      _ = DEW_MOIST_CAP := pyRound3_cap
  · rw [hr]
    have hlow : s.moisture_level ≤ min (max s.moisture_level
        (dep * WETTING_INCREMENT)) DEW_MOIST_CAP :=
      le_min (le_max_left _ _) hm.le
    calc s.moisture_level = pyRound3 s.moisture_level :=
        (pyRound3_fix ⟨k, hmk⟩).symm
      _ ≤ pyRound3 (min (max s.moisture_level (dep * WETTING_INCREMENT))
          DEW_MOIST_CAP) := pyRound3_mono hlow

theorem spec_C5_dew_branch_witness :
    (⟨3 / 5, 0⟩ : UpdateResult).moisture =
        pyRound3 (min (max stC5.moisture_level (11 * WETTING_INCREMENT))
          DEW_MOIST_CAP) ∧
      (⟨3 / 5, 0⟩ : UpdateResult).moisture ≤ DEW_MOIST_CAP ∧
      stC5.moisture_level ≤ (⟨3 / 5, 0⟩ : UpdateResult).moisture :=
  spec_C5_dew_branch log0 snapC5 nowQuiet 10000 stC5 ⟨3 / 5, 0⟩ 11 0
    (by norm_num [snapC5]) (by norm_num [snapC5])
    (by norm_num [stC5, DEW_MOIST_CAP])
    (by norm_num [trackSunsetConditions, trackCapture, trackReset, stC5,
      snapC5, nowQuiet, DEW_RESET_HOUR, dewPointDepression,
      calculate_dew_point, gammaVal, log0, A, B, DEW_TEMP_DIFFERENCE])
    (by norm_num) (by norm_num [stC5])
    (by norm_num [asyncUpdateData, modelStep, trackSunsetConditions,
      trackCapture, trackReset, snapC5, nowQuiet, stC5, log0,
      dewPointDepression, calculate_dew_point, gammaVal, A, B,
      DEW_TEMP_DIFFERENCE, DEW_RESET_HOUR, applyBranches, DEW_MOIST_CAP,
      WETTING_INCREMENT, HUMIDITY_THRESHOLD, pyRound3, roundHalfEven,
      calculate_grass_drying, sun_component, humidity_component,
      temp_component, wind_component, MAX_SOLAR_POWER_W, MIN_DRYING_TEMP_C,
      MAX_DRYING_TEMP_C, MAX_EFFECTIVE_WIND_KMH, WEIGHTS_temperature,
      WEIGHTS_wind, MASTER_DRYING_COEFFICIENT])

/-- C8 (amended): the depression formula is only used when both captured
values are non-zero, because the source guards it with the Python
truthiness test if self.sunset_humi and self.sunset_temp; in that case it
equals dew_point(captured temperature, captured humidity) plus
DEW_TEMP_DIFFERENCE minus the current temperature.  A captured value of
exactly 0.0 falls back to the sentinel 100.0, as the counterexample
shows. -/
theorem spec_C8_depression_formula (log : ℚ → ℚ) (st sh temp dps : ℚ)
    (hst : st ≠ 0) (hsh : sh ≠ 0)
    (hdp : calculate_dew_point log st sh = .ok dps) :
    dewPointDepression log (some st) (some sh) temp =
      .ok (dps + DEW_TEMP_DIFFERENCE - temp) := by
  have h : dewPointDepression log (some st) (some sh) temp =
      if sh ≠ 0 ∧ st ≠ 0 then
        match calculate_dew_point log st sh with
        | .error e => .error e
        | .ok dps2 => .ok (dps2 + DEW_TEMP_DIFFERENCE - temp)
      else .ok 100 := rfl
  rw [h, if_pos ⟨hsh, hst⟩, hdp]

theorem spec_C8_depression_formula_witness :
    dewPointDepression log0 (some 10) (some 80) 5 =
      .ok (10 + DEW_TEMP_DIFFERENCE - 5) :=
  spec_C8_depression_formula log0 10 80 5 10 (by norm_num) (by norm_num)
    (by norm_num [calculate_dew_point, gammaVal, log0, A, B])

theorem spec_C8_counterexample :
    dewPointDepression log0 (some 0) (some 80) 5 = .ok 100 ∧
    calculate_dew_point log0 0 80 = .ok 0 ∧
    ((0 : ℚ) + DEW_TEMP_DIFFERENCE - 5 ≠ 100) := by
  norm_num [dewPointDepression, calculate_dew_point, gammaVal, log0, A, B,
    DEW_TEMP_DIFFERENCE]

/-- C4: starting from any prior moisture level in the unit interval, a
successful cycle persists exactly the rounding (to three decimal digits)
of the value produced by one of the four branches, and the persisted
value stays in the unit interval; the invariant also holds across every
sequence of cycles started from the initial state with moisture 0.0. -/
theorem spec_C4_clamp_invariant (log : ℚ → ℚ) :
    (∀ (snap : Snapshot) (now : Instant) (sunset : ℚ) (s : CoordState)
      (r : UpdateResult), 0 ≤ s.moisture_level → s.moisture_level ≤ 1 →
      (asyncUpdateData log snap now sunset s).2 = .ok r →
      ((asyncUpdateData log snap now sunset s).1.moisture_level =
          r.moisture ∧
        0 ≤ r.moisture ∧ r.moisture ≤ 1 ∧
        ∃ cur, r.moisture = pyRound3 cur ∧
          (cur = 1 ∨
            (∃ dep, cur = min (max s.moisture_level
              (dep * WETTING_INCREMENT)) DEW_MOIST_CAP) ∨
            cur = max 0 (s.moisture_level - calculate_grass_drying snap.solar
              snap.humidity snap.temperature snap.wind) ∨
            cur = s.moisture_level))) ∧
    (∀ inputs : List CycleInput,
      0 ≤ (runCycles log initialState inputs).moisture_level ∧
        (runCycles log initialState inputs).moisture_level ≤ 1) := by
  constructor
  · intro snap now sunset s r hm0 hm1 hok
    have hmem := asyncUpdateData_moisture_mem_unit log snap now sunset s
      hm0 hm1
    unfold asyncUpdateData at hok hmem ⊢
    obtain ⟨dep, _, hr, hst, _, _⟩ := modelStep_ok log snap _ r hok
    have hs1 := trackSunsetConditions_moisture sunset now snap.temperature
      snap.humidity s
    rw [hst] at hmem
    refine ⟨hst, hmem.1, hmem.2, applyBranches snap dep
      (calculate_grass_drying snap.solar snap.humidity snap.temperature
        snap.wind)
      (trackSunsetConditions sunset now snap.temperature snap.humidity
        s).moisture_level, hr, ?_⟩
    rcases applyBranches_shape snap dep
      (calculate_grass_drying snap.solar snap.humidity snap.temperature
        snap.wind)
      (trackSunsetConditions sunset now snap.temperature snap.humidity
        s).moisture_level with h | h | h | h
    · exact Or.inl h
    · refine Or.inr (Or.inl ⟨dep, ?_⟩)
      rw [h, hs1]
    · refine Or.inr (Or.inr (Or.inl ?_))
      rw [h, hs1]
    · refine Or.inr (Or.inr (Or.inr ?_))
      rw [h, hs1]
  · intro inputs
    exact runCycles_mem_unit log inputs initialState
      (by norm_num [initialState]) (by norm_num [initialState])

theorem spec_C4_clamp_invariant_witness :
    ((asyncUpdateData log0 snapC3 nowQuiet 10000 stC3).1.moisture_level =
        (⟨1, 20⟩ : UpdateResult).moisture ∧
      0 ≤ (⟨1, 20⟩ : UpdateResult).moisture ∧
      (⟨1, 20⟩ : UpdateResult).moisture ≤ 1 ∧
      ∃ cur, (⟨1, 20⟩ : UpdateResult).moisture = pyRound3 cur ∧
        (cur = 1 ∨
          (∃ dep, cur = min (max stC3.moisture_level
            (dep * WETTING_INCREMENT)) DEW_MOIST_CAP) ∨
          cur = max 0 (stC3.moisture_level - calculate_grass_drying
            snapC3.solar snapC3.humidity snapC3.temperature snapC3.wind) ∨
          cur = stC3.moisture_level)) ∧
    (0 ≤ (runCycles log0 initialState [⟨snapC3, nowQuiet, 10000⟩]
        ).moisture_level ∧
      (runCycles log0 initialState [⟨snapC3, nowQuiet, 10000⟩]
        ).moisture_level ≤ 1) :=
  ⟨(spec_C4_clamp_invariant log0).1 snapC3 nowQuiet 10000 stC3 ⟨1, 20⟩
      (by norm_num [stC3]) (by norm_num [stC3])
      (by norm_num [asyncUpdateData, modelStep, trackSunsetConditions,
        trackCapture, trackReset, snapC3, stC3, nowQuiet, log0,
        dewPointDepression, calculate_dew_point, gammaVal, A, B,
        DEW_TEMP_DIFFERENCE, DEW_RESET_HOUR, applyBranches, DEW_MOIST_CAP,
        WETTING_INCREMENT, HUMIDITY_THRESHOLD, pyRound3, roundHalfEven,
        calculate_grass_drying, sun_component, humidity_component,
        temp_component, wind_component, MAX_SOLAR_POWER_W,
        MIN_DRYING_TEMP_C, MAX_DRYING_TEMP_C, MAX_EFFECTIVE_WIND_KMH,
        WEIGHTS_temperature, WEIGHTS_wind, MASTER_DRYING_COEFFICIENT]),
    (spec_C4_clamp_invariant log0).2 [⟨snapC3, nowQuiet, 10000⟩]⟩

theorem iterate_dry_aux (log : ℚ → ℚ) (snap : Snapshot) (now : Instant)
    (sunset : ℚ) (hday : snap.is_daytime = true)
    (hhum : snap.humidity < HUMIDITY_THRESHOLD) (hrain : snap.raining ≠ 1) :
    ∀ (n : ℕ) (s : CoordState), isRound3 s.moisture_level →
      0 ≤ s.moisture_level →
      ((iterateCycles log snap now sunset (n + 1) s).moisture_level ≤
          (iterateCycles log snap now sunset n s).moisture_level ∧
        ((iterateCycles log snap now sunset n s).moisture_level = 0 →
          (iterateCycles log snap now sunset (n + 1) s).moisture_level =
            0)) := by
  intro n
  induction n with
  | zero =>
    intro s hk h0
    have h := asyncUpdateData_dry_step log snap now sunset s hday hhum
      hrain hk h0
    simp only [iterateCycles]
    exact ⟨h.1, h.2.2.2⟩
  | succ n ih =>
    intro s hk h0
    have h := asyncUpdateData_dry_step log snap now sunset s hday hhum
      hrain hk h0
    have hnext := ih (asyncUpdateData log snap now sunset s).1 h.2.1 h.2.2.1
    simp only [iterateCycles]
    exact hnext

/-- C7: holding a daytime, below-threshold-humidity, non-raining snapshot
fixed across repeated cycles, every cycle leaves moisture_level less than
or equal to the previous value, and once the value is 0.0 the next cycle
keeps it at 0.0. -/
theorem spec_C7_drying_monotone (log : ℚ → ℚ) (snap : Snapshot)
    (now : Instant) (sunset : ℚ) (s : CoordState) (k : ℤ)
    (hday : snap.is_daytime = true)
    (hhum : snap.humidity < HUMIDITY_THRESHOLD) (hrain : snap.raining ≠ 1)
    (hmk : s.moisture_level = (k : ℚ) / 1000) (hm0 : 0 ≤ s.moisture_level)
    (n : ℕ) :
    (iterateCycles log snap now sunset (n + 1) s).moisture_level ≤
        (iterateCycles log snap now sunset n s).moisture_level ∧
      ((iterateCycles log snap now sunset n s).moisture_level = 0 →
        (iterateCycles log snap now sunset (n + 1) s).moisture_level = 0) :=
  iterate_dry_aux log snap now sunset hday hhum hrain n s ⟨k, hmk⟩ hm0

/-- A dry sunny daytime snapshot. -/
def snapC7 : Snapshot := ⟨20, 50, 3000, 10, 0, true⟩

theorem spec_C7_drying_monotone_witness :
    (iterateCycles log0 snapC7 nowQuiet 10000 1 stC3).moisture_level ≤
        (iterateCycles log0 snapC7 nowQuiet 10000 0 stC3).moisture_level ∧
      ((iterateCycles log0 snapC7 nowQuiet 10000 0 stC3).moisture_level =
          0 →
        (iterateCycles log0 snapC7 nowQuiet 10000 1 stC3).moisture_level =
          0) :=
  spec_C7_drying_monotone log0 snapC7 nowQuiet 10000 stC3 500
    (by norm_num [snapC7]) (by norm_num [snapC7, HUMIDITY_THRESHOLD])
    (by norm_num [snapC7]) (by norm_num [stC3]) (by norm_num [stC3]) 0

/-- C10 (amended): a first observe call inside the trigger window that is
not also inside the noon reset window stores the current temperature and
humidity and sets the flag; a later call with the flag set that is
outside the reset window changes nothing; any call inside the reset
window leaves both values cleared and the flag unset (re-enabling a later
capture) - even when that call is itself inside the trigger window, which
is the corner the counterexample exhibits. -/
theorem spec_C10_capture_once (sunset : ℚ) (now : Instant) (temp humi : ℚ)
    (s : CoordState) :
    ((sunset - 30 ≤ now.t ∧ s.has_stored_sunset_values = false ∧
        ¬(now.hour = DEW_RESET_HOUR ∧ now.minute < 5)) →
      trackSunsetConditions sunset now temp humi s =
        { s with
            sunset_temp := some temp
            sunset_humi := some humi
            has_stored_sunset_values := true }) ∧
    ((s.has_stored_sunset_values = true ∧
        ¬(now.hour = DEW_RESET_HOUR ∧ now.minute < 5)) →
      trackSunsetConditions sunset now temp humi s = s) ∧
    ((now.hour = DEW_RESET_HOUR ∧ now.minute < 5) →
      (trackSunsetConditions sunset now temp humi s).sunset_temp = none ∧
      (trackSunsetConditions sunset now temp humi s).sunset_humi = none ∧
      (trackSunsetConditions sunset now temp humi
        s).has_stored_sunset_values = false) := by
  refine ⟨?_, ?_, ?_⟩
  · intro ⟨h1, h2, h3⟩
    unfold trackSunsetConditions trackCapture trackReset
    rw [if_neg h3, if_pos ⟨h1, h2⟩]
  · intro ⟨h1, h2⟩
    unfold trackSunsetConditions trackCapture trackReset
    rw [if_neg h2, if_neg (by simp [h1])]
  · intro h
    unfold trackSunsetConditions trackReset
    rw [if_pos h]
    exact ⟨rfl, rfl, rfl⟩

theorem spec_C10_capture_once_witness :
    (trackSunsetConditions 100 ⟨80, 18, 0⟩ 7 60 initialState =
      { initialState with
          sunset_temp := some 7
          sunset_humi := some 60
          has_stored_sunset_values := true }) ∧
    (trackSunsetConditions 100 ⟨85, 18, 5⟩ 7 60 ⟨0, some 7, some 60, true⟩ =
      ⟨0, some 7, some 60, true⟩) ∧
    ((trackSunsetConditions 100 ⟨80, 12, 3⟩ 7 60
        ⟨0, some 7, some 60, true⟩).sunset_temp = none ∧
      (trackSunsetConditions 100 ⟨80, 12, 3⟩ 7 60
        ⟨0, some 7, some 60, true⟩).sunset_humi = none ∧
      (trackSunsetConditions 100 ⟨80, 12, 3⟩ 7 60
        ⟨0, some 7, some 60, true⟩).has_stored_sunset_values = false) :=
  ⟨(spec_C10_capture_once 100 ⟨80, 18, 0⟩ 7 60 initialState).1
      (by norm_num [initialState, DEW_RESET_HOUR]),
    (spec_C10_capture_once 100 ⟨85, 18, 5⟩ 7 60 ⟨0, some 7, some 60,
      true⟩).2.1 (by norm_num [DEW_RESET_HOUR]),
    (spec_C10_capture_once 100 ⟨80, 12, 3⟩ 7 60 ⟨0, some 7, some 60,
      true⟩).2.2 (by norm_num [DEW_RESET_HOUR])⟩

theorem spec_C10_counterexample :
    (⟨0, some 5, some 50, true⟩ : CoordState).has_stored_sunset_values =
        true ∧
    (1020 : ℚ) - 30 ≤ (⟨1000, 12, 0⟩ : Instant).t ∧
    (trackSunsetConditions 1020 ⟨1000, 12, 0⟩ 7 60
      ⟨0, some 5, some 50, true⟩).sunset_temp = none ∧
    (⟨0, some 5, some 50, true⟩ : CoordState).sunset_temp = some 5 := by
  norm_num [trackSunsetConditions, trackCapture, trackReset, DEW_RESET_HOUR]

end MoistureTracker
